import Mathlib

/-
Shallow embedding of the Lifetime repository (a Vulkan Game-of-Life demo):
the compute shader `compute_life_cs` and host driver in
src/game_compute_pipeline.rs, the final render pass in
src/final_render_pass.rs, and the event-loop glue in src/main.rs.

Machine integers are modelled as Nat/Int; GPU buffers as functions from a
(signed) flat index to the stored word; images as dimensioned pixel maps.
-/

namespace Lifetime

/-- RGBA color value (a GLSL vec4), with exact rational components. -/
abbrev Vec4 := ℚ × ℚ × ℚ × ℚ

/-- The two storage-buffer bindings of the compute shader:
binding 1 `LifeInBuffer { uint life_in[]; }` and
binding 2 `LifeOutBuffer { uint life_out[]; }`
(game_compute_pipeline.rs lines 167-168). -/
inductive Buf
  | lifeIn
  | lifeOut
deriving DecidableEq

/-- `get_index` from the compute shader (lines 176-179):
`return pos.y * dims.x + pos.x;` where `dims.x` is the image width.
A GLSL `ivec2` is a pair of signed integers, so the result can be
negative for negative coordinates. -/
def get_index (w : Int) (pos : Int × Int) : Int :=
  pos.2 * w + pos.1

/-- The eight neighbor offsets, in the order the shader declares them
(lines 186-193): up_left, up, up_right, right, down_right, down,
down_left, left. -/
def neighbor_offsets : List (Int × Int) :=
  [(-1, 1), (0, 1), (1, 1), (1, 0), (1, -1), (0, -1), (-1, -1), (-1, 0)]

/-- The `alive_count` accumulation of `compute_life` (lines 195-203):
eight guarded increments, each testing whether the addressed word of the
given buffer equals 1.  In the shader the buffer tested is `life_out`. -/
def count_alive (buf : Int → Nat) (w : Int) (pos : Int × Int) : Nat :=
  (if buf (get_index w (pos.1 - 1, pos.2 + 1)) = 1 then 1 else 0) +
  (if buf (get_index w (pos.1, pos.2 + 1)) = 1 then 1 else 0) +
  (if buf (get_index w (pos.1 + 1, pos.2 + 1)) = 1 then 1 else 0) +
  (if buf (get_index w (pos.1 + 1, pos.2)) = 1 then 1 else 0) +
  (if buf (get_index w (pos.1 + 1, pos.2 - 1)) = 1 then 1 else 0) +
  (if buf (get_index w (pos.1, pos.2 - 1)) = 1 then 1 else 0) +
  (if buf (get_index w (pos.1 - 1, pos.2 - 1)) = 1 then 1 else 0) +
  (if buf (get_index w (pos.1 - 1, pos.2)) = 1 then 1 else 0)

/-- The value one invocation of `compute_life` (lines 182-216) stores into
`life_out[index]`, under the schedule in which every invocation reads the
pre-dispatch buffer contents before any write lands (all the shader's
loads are modelled against the initial snapshot; each invocation writes
only its own index, so this is one admissible execution of the racy
dispatch).  Note the shader reads the neighbors and the cell itself from
`life_out`, and copies `life_in[index]` only in the final else branch;
the second branch keeps GLSL precedence: `(out==1 && cnt<2) || cnt>3`. -/
def compute_life_result (life_in life_out : Int → Nat) (w : Int)
    (pos : Int × Int) : Nat :=
  let index := get_index w pos
  let cnt := count_alive life_out w pos
  if life_out index = 0 ∧ cnt = 3 then 1
  else if (life_out index = 1 ∧ cnt < 2) ∨ cnt > 3 then 0
  else life_in index

/-- One buffer access performed by a shader invocation. -/
inductive Access
  | read (b : Buf) (i : Int)
  | write (b : Buf) (i : Int)
deriving DecidableEq

/-- The eight unconditional neighbor loads of `compute_life`
(lines 196-203), all addressed into `life_out`, in shader order. -/
def neighbor_reads (w : Int) (pos : Int × Int) : List Access :=
  [Access.read Buf.lifeOut (get_index w (pos.1 - 1, pos.2 + 1)),
   Access.read Buf.lifeOut (get_index w (pos.1, pos.2 + 1)),
   Access.read Buf.lifeOut (get_index w (pos.1 + 1, pos.2 + 1)),
   Access.read Buf.lifeOut (get_index w (pos.1 + 1, pos.2)),
   Access.read Buf.lifeOut (get_index w (pos.1 + 1, pos.2 - 1)),
   Access.read Buf.lifeOut (get_index w (pos.1, pos.2 - 1)),
   Access.read Buf.lifeOut (get_index w (pos.1 - 1, pos.2 - 1)),
   Access.read Buf.lifeOut (get_index w (pos.1 - 1, pos.2))]

/-- The ordered buffer-access trace of one `compute_life` invocation
(lines 182-216), with GLSL short-circuit evaluation: the neighbor loads,
then the `life_out[index]` load of the first condition; if it fails, the
`life_out[index]` load of the second condition; if that fails too, the
`life_in[index]` load of the else branch; finally the single store to
`life_out[index]` taken by whichever branch ran. -/
def compute_life_trace (_life_in life_out : Int → Nat) (w : Int)
    (pos : Int × Int) : List Access :=
  let index := get_index w pos
  let cnt := count_alive life_out w pos
  neighbor_reads w pos ++ [Access.read Buf.lifeOut index] ++
    (if life_out index = 0 ∧ cnt = 3 then
       [Access.write Buf.lifeOut index]
     else
       [Access.read Buf.lifeOut index] ++
         (if (life_out index = 1 ∧ cnt < 2) ∨ cnt > 3 then
            [Access.write Buf.lifeOut index]
          else
            [Access.read Buf.lifeIn index, Access.write Buf.lifeOut index]))

/-- The standard Game-of-Life rule as the spec states it: the cell is
alive in the next generation iff the neighbor count is 3, or the count
is 2 and the cell was alive.  Stated from the spec for comparison with
the shader. -/
def spec_life_rule (alive : Bool) (cnt : Nat) : Bool :=
  cnt == 3 || (cnt == 2 && alive)

/-- The next state the spec's rule assigns to a cell, with the neighbor
count and the cell's own state both taken from the current generation
`life`. -/
def spec_next_state (life : Int → Nat) (w : Int) (pos : Int × Int) : Nat :=
  if spec_life_rule (life (get_index w pos) == 1) (count_alive life w pos)
  then 1 else 0

/-- Non-boundary cell of a `w × h` grid: both coordinates at least 1 and
at most dimension minus 2, so all eight neighbors are grid cells. -/
def interior (w h : Int) (pos : Int × Int) : Prop :=
  1 ≤ pos.1 ∧ pos.1 ≤ w - 2 ∧ 1 ≤ pos.2 ∧ pos.2 ≤ h - 2

instance (w h : Int) (pos : Int × Int) : Decidable (interior w h pos) := by
  unfold interior; infer_instance

/-- Previous generation holding a horizontal blinker on row 2 of an 8×8
grid: cells (1,2), (2,2), (3,2), that is flat indices 17, 18, 19. -/
def blinker_in : Int → Nat :=
  fun i => if i = 17 ∨ i = 18 ∨ i = 19 then 1 else 0

/-- An all-dead buffer. -/
def zero_buf : Int → Nat := fun _ => 0

/-- C1, code evaluated at the failing input: on an 8×8 grid with the
previous generation `blinker_in` in `life_in` and `life_out` all dead,
the non-boundary cell (2,1) has exactly 3 alive neighbors in the previous
generation, so the spec's rule makes it alive; but the life-update phase
counts neighbors in `life_out` (count 0) and therefore leaves the cell
dead, merely copying `life_in[index]`. -/
theorem C1_life_rule_code_eval :
    interior 8 8 (2, 1) ∧
    spec_next_state blinker_in 8 (2, 1) = 1 ∧
    compute_life_result blinker_in zero_buf 8 (2, 1) = 0 := by
  decide

/-- Whether an access is a read addressed into buffer `b`. -/
def is_read_of (b : Buf) : Access → Bool
  | Access.read c _ => c == b
  | Access.write _ _ => false

/-- C2, code evaluated at the failing input: the access trace of the
life-update invocation at cell (2,2) of an 8×8 grid reads `life_out`
(e.g. neighbor index 25) and writes `life_out` (index 18); moreover the
invocation at the neighboring cell (2,3) reads the very index 18 that the
(2,2) invocation writes — so the phase reads the grid it is mutating and
its reads are not all from the previous-generation buffer `life_in`. -/
theorem C2_read_write_separation_code_eval :
    Access.read Buf.lifeOut 25 ∈ compute_life_trace zero_buf zero_buf 8 (2, 2) ∧
    Access.write Buf.lifeOut 18 ∈ compute_life_trace zero_buf zero_buf 8 (2, 2) ∧
    Access.read Buf.lifeOut 18 ∈ compute_life_trace zero_buf zero_buf 8 (2, 3) ∧
    ¬ (∀ a ∈ compute_life_trace zero_buf zero_buf 8 (2, 2),
        is_read_of Buf.lifeOut a = false) := by
  decide

/-- One recorded compute dispatch, as `GameComputePipeline::dispatch`
(game_compute_pipeline.rs lines 122-155) records it: the descriptor set
binds the output image at binding 0, `life_in` at binding 1 and
`life_out` at binding 2; push constants carry the two colors and the
`step` selector; the workgroup counts are `[w/8, h/8, 1]` where `(w,h)`
are the output image's dimensions (line 153). -/
structure Cmd where
  img : Nat
  binding1 : Nat
  binding2 : Nat
  life_color : Vec4
  dead_color : Vec4
  step : Int
  wg : Nat × Nat
deriving DecidableEq

/-- Host-side state of `GameComputePipeline` (lines 21-28), with the GPU
resources represented by handles: the two life buffers, the output image
view and its creation size (the image is created with `size`, line 47). -/
structure GameComputePipeline where
  life_in : Nat
  life_out : Nat
  out_view : Nat
  size : Nat × Nat
deriving DecidableEq

/-- `GameComputePipeline::dispatch` (lines 122-155): build the command
for one dispatch of the shared pipeline with the current buffer roles. -/
def GameComputePipeline.dispatch (s : GameComputePipeline)
    (life_color dead_color : Vec4) (step : Int) : Cmd :=
  { img := s.out_view
    binding1 := s.life_in
    binding2 := s.life_out
    life_color := life_color
    dead_color := dead_color
    step := step
    wg := (s.size.1 / 8, s.size.2 / 8) }

/-- `GameComputePipeline::compute` (lines 87-119): record a life-update
dispatch (step 0, line 105) then a colorize dispatch (step 1, line 107)
into one command buffer submitted as one unit, then swap `life_in` and
`life_out` (line 116).  Returns the submitted command list and the
post-call host state. -/
def GameComputePipeline.compute (s : GameComputePipeline)
    (life_color dead_color : Vec4) : List Cmd × GameComputePipeline :=
  ([s.dispatch life_color dead_color 0, s.dispatch life_color dead_color 1],
   { s with life_in := s.life_out, life_out := s.life_in })

/-- A storage image: its dimensions and its pixels. -/
structure Image where
  dims : Nat × Nat
  pix : Int × Int → Vec4

/-- Device memory: storage-buffer contents by buffer handle and image
contents by image handle. -/
structure Mem where
  bufs : Nat → Int → Nat
  imgs : Nat → Image

/-- Overwrite the buffer at handle `n`. -/
def setBuf (m : Mem) (n : Nat) (v : Int → Nat) : Mem :=
  { m with bufs := fun k => if k = n then v else m.bufs k }

/-- Overwrite the image at handle `n`. -/
def setImg (m : Mem) (n : Nat) (v : Image) : Mem :=
  { m with imgs := fun k => if k = n then v else m.imgs k }

/-- Whether a cell position is covered by a dispatch of `wg.1 × wg.2`
workgroups of 8×8 invocations: `gl_GlobalInvocationID` per axis is
8·workgroupID + localID, so exactly the positions below `8*wg` per axis. -/
def in_dispatch_range (wg : Nat × Nat) (pos : Int × Int) : Prop :=
  0 ≤ pos.1 ∧ pos.1 < 8 * (wg.1 : Int) ∧ 0 ≤ pos.2 ∧ pos.2 < 8 * (wg.2 : Int)

instance (wg : Nat × Nat) (pos : Int × Int) :
    Decidable (in_dispatch_range wg pos) := by
  unfold in_dispatch_range; infer_instance

/-- Effect of one life-update dispatch (step 0) on the `life_out`
buffer, under the snapshot schedule of `compute_life_result`: the
invocation at cell `(x,y)` writes `compute_life_result` at its own index
`y*w + x`; indices owned by no dispatched invocation keep their old
value.  The flat index determines its owning cell uniquely because the
covered x-range `8*wg.1` does not exceed the row stride `w` (the guard
`8*wg.1 ≤ w`, which holds for the program's `wg.1 = w/8`). -/
def run_life_phase (wg : Nat × Nat) (w : Int)
    (life_in life_out : Int → Nat) : Int → Nat :=
  fun i =>
    if 0 < w ∧ 8 * (wg.1 : Int) ≤ w ∧
        in_dispatch_range wg (i.emod w, i.ediv w) then
      compute_life_result life_in life_out w (i.emod w, i.ediv w)
    else life_out i

/-- Effect of one colorize dispatch (step 1, `compute_color`, shader
lines 218-226) on the output image: each dispatched invocation stores
`life_color` at its pixel if `life_out[index] == 1` and `dead_color`
otherwise; uncovered pixels are untouched. -/
def run_color_phase (wg : Nat × Nat) (w : Int) (life_out : Int → Nat)
    (life_color dead_color : Vec4) (img : Int × Int → Vec4) :
    Int × Int → Vec4 :=
  fun pos =>
    if in_dispatch_range wg pos then
      if life_out (get_index w pos) = 1 then life_color else dead_color
    else img pos

/-- Execute one recorded dispatch against device memory, following the
shader's `main` (lines 228-233): `step == 0` runs `compute_life` over
binding 1 (`life_in`) and binding 2 (`life_out`); otherwise
`compute_color` reads binding 2 and stores into the bound image.  The
width used by `get_index` is `imageSize(img).x`. -/
def exec (c : Cmd) (m : Mem) : Mem :=
  let w := ((m.imgs c.img).dims.1 : Int)
  if c.step = 0 then
    setBuf m c.binding2
      (run_life_phase c.wg w (m.bufs c.binding1) (m.bufs c.binding2))
  else
    setImg m c.img
      { dims := (m.imgs c.img).dims
        pix := run_color_phase c.wg w (m.bufs c.binding2)
                 c.life_color c.dead_color (m.imgs c.img).pix }

/-- Execute a command list in recording order (one submission). -/
def exec_list (cmds : List Cmd) (m : Mem) : Mem :=
  cmds.foldl (fun m c => exec c m) m

/-- C3: after `compute`, the buffer roles are swapped — the buffer the
next call's dispatches bind as the read input (binding 1) is exactly the
buffer this call's dispatches bound as the write output (binding 2), and
when the two buffer handles are distinct it is never this call's input. -/
theorem C3_role_swap (s : GameComputePipeline) (lc dc lc' dc' : Vec4)
    (st st' : Int) (hne : s.life_in ≠ s.life_out) :
    (((s.compute lc dc).2.dispatch lc' dc' st').binding1 =
        (s.dispatch lc dc st).binding2) ∧
    (((s.compute lc dc).2.dispatch lc' dc' st').binding1 ≠
        (s.dispatch lc dc st).binding1) := by
  refine ⟨rfl, ?_⟩
  simpa [GameComputePipeline.compute, GameComputePipeline.dispatch] using
    fun h => hne h.symm

/-- Witness for C3 at a concrete engine state with distinct handles. -/
theorem C3_role_swap_witness :
    ((((⟨0, 1, 2, (16, 16)⟩ : GameComputePipeline).compute
          (1, 0, 0, 1) (0, 0, 0, 1)).2.dispatch
        (1, 0, 0, 1) (0, 0, 0, 1) 0).binding1 =
      ((⟨0, 1, 2, (16, 16)⟩ : GameComputePipeline).dispatch
        (1, 0, 0, 1) (0, 0, 0, 1) 0).binding2) ∧
    ((((⟨0, 1, 2, (16, 16)⟩ : GameComputePipeline).compute
          (1, 0, 0, 1) (0, 0, 0, 1)).2.dispatch
        (1, 0, 0, 1) (0, 0, 0, 1) 0).binding1 ≠
      ((⟨0, 1, 2, (16, 16)⟩ : GameComputePipeline).dispatch
        (1, 0, 0, 1) (0, 0, 0, 1) 0).binding1) :=
  C3_role_swap ⟨0, 1, 2, (16, 16)⟩ (1, 0, 0, 1) (0, 0, 0, 1)
    (1, 0, 0, 1) (0, 0, 0, 1) 0 0 (by decide)

/-- A concrete device memory: all-zero buffers, all 16×16 black images. -/
def mem0 : Mem :=
  { bufs := fun _ _ => 0
    imgs := fun _ => { dims := (16, 16), pix := fun _ => (0, 0, 0, 0) } }

/-- C4: within one `compute` submission the life-update dispatch (step 0)
strictly precedes the colorize dispatch (step 1) in the recorded command
list, and executing the submission in that order leaves every dispatched
pixel of the output image colored according to the life state AFTER this
step's update (the `life_out` contents the step-0 dispatch produced),
never the pre-step state. -/
theorem C4_phase_ordering (s : GameComputePipeline) (lc dc : Vec4)
    (m : Mem) (pos : Int × Int)
    (hdims : (m.imgs s.out_view).dims = s.size)
    (hpos : in_dispatch_range (s.size.1 / 8, s.size.2 / 8) pos) :
    ((s.compute lc dc).1.map Cmd.step = [0, 1]) ∧
    ((exec_list (s.compute lc dc).1 m).imgs s.out_view).pix pos =
      (if run_life_phase (s.size.1 / 8, s.size.2 / 8) (s.size.1 : Int)
          (m.bufs s.life_in) (m.bufs s.life_out)
          (get_index (s.size.1 : Int) pos) = 1
       then lc else dc) := by
  refine ⟨rfl, ?_⟩
  simp [GameComputePipeline.compute, GameComputePipeline.dispatch,
    exec_list, exec, setBuf, setImg, run_color_phase, hdims, hpos]

/-- Witness for C4 at a concrete engine state, memory and cell. -/
theorem C4_phase_ordering_witness :
    ((((⟨0, 1, 2, (16, 16)⟩ : GameComputePipeline).compute
          (1, 0, 0, 1) (0, 0, 0, 1)).1.map Cmd.step = [0, 1]) ∧
     ((exec_list (((⟨0, 1, 2, (16, 16)⟩ : GameComputePipeline).compute
            (1, 0, 0, 1) (0, 0, 0, 1)).1) mem0).imgs 2).pix (3, 3) =
       (if run_life_phase (16 / 8, 16 / 8) (16 : Int)
            (mem0.bufs 0) (mem0.bufs 1) (get_index (16 : Int) (3, 3)) = 1
        then (1, 0, 0, 1) else (0, 0, 0, 1))) :=
  C4_phase_ordering ⟨0, 1, 2, (16, 16)⟩ (1, 0, 0, 1) (0, 0, 0, 1) mem0
    (3, 3) rfl (by decide)

/-- C5: executing the colorize dispatch (step 1) built by `dispatch`
stores, at every cell in the dispatched range, `life_color` into the
output image's pixel iff the bound `life_out` buffer (binding 2, the
grid the step-0 dispatch of the same submission writes) holds 1 at the
cell's index, and `dead_color` otherwise. -/
theorem C5_colorize (s : GameComputePipeline) (lc dc : Vec4) (m : Mem)
    (pos : Int × Int)
    (hdims : (m.imgs s.out_view).dims = s.size)
    (hpos : in_dispatch_range (s.size.1 / 8, s.size.2 / 8) pos) :
    ((exec (s.dispatch lc dc 1) m).imgs s.out_view).pix pos =
      (if m.bufs s.life_out (get_index (s.size.1 : Int) pos) = 1
       then lc else dc) := by
  simp [GameComputePipeline.dispatch, exec, setImg, run_color_phase,
    hdims, hpos]

/-- Witness for C5 at a concrete engine state, memory and cell. -/
theorem C5_colorize_witness :
    ((exec ((⟨0, 1, 2, (16, 16)⟩ : GameComputePipeline).dispatch
          (1, 0, 0, 1) (0, 0, 0, 1) 1) mem0).imgs 2).pix (5, 7) =
      (if mem0.bufs 1 (get_index (16 : Int) (5, 7)) = 1
       then ((1 : ℚ), (0 : ℚ), (0 : ℚ), (1 : ℚ))
       else ((0 : ℚ), (0 : ℚ), (0 : ℚ), (1 : ℚ))) :=
  C5_colorize ⟨0, 1, 2, (16, 16)⟩ (1, 0, 0, 1) (0, 0, 0, 1) mem0 (5, 7)
    rfl (by decide)

/-- Contents `rand_grid` (game_compute_pipeline.rs lines 30-40) gives a
buffer: `size[0]*size[1]` words, each an independent draw from `{0,1}`
(`gen_range(0u32..=1)`).  The thread RNG is modelled as an oracle stream
`rng`; cell `i` takes `rng i % 2`.  Words beyond the allocation are 0. -/
def grid_init (rng : Nat → Nat) (size : Nat × Nat) : Int → Nat :=
  fun i =>
    if 0 ≤ i ∧ i < ((size.1 * size.2 : Nat) : Int) then rng i.toNat % 2
    else 0

/-- `GameComputePipeline::new` (lines 43-81): allocate two fresh
randomly initialized life buffers (lines 44-45, one RNG stream each) and
a fresh output storage image of the same `size` (lines 47-59, contents
unspecified until the first colorize, modelled as black).  Allocation of
fresh GPU objects is modelled by a counter: one `new` consumes three
fresh handles and returns the bumped counter. -/
def GameComputePipeline.new (rng1 rng2 : Nat → Nat) (alloc : Nat)
    (size : Nat × Nat) (m : Mem) : GameComputePipeline × Nat × Mem :=
  let m1 := setBuf m alloc (grid_init rng1 size)
  let m2 := setBuf m1 (alloc + 1) (grid_init rng2 size)
  let m3 := setImg m2 (alloc + 2)
    { dims := size, pix := fun _ => (0, 0, 0, 0) }
  (⟨alloc, alloc + 1, alloc + 2, size⟩, alloc + 3, m3)

/-- `GRID_SIZE` (main.rs line 52). -/
def GRID_SIZE : Nat := 2000

/-- The Reset button handler (main.rs lines 165-167): replace the engine
with `GameComputePipeline::new(&vulkano_context, [GRID_SIZE, GRID_SIZE])`,
a wholesale reconstruction using fresh allocations and fresh randomness. -/
def reset (rng1 rng2 : Nat → Nat) (alloc : Nat) (m : Mem) :
    GameComputePipeline × Nat × Mem :=
  GameComputePipeline.new rng1 rng2 alloc (GRID_SIZE, GRID_SIZE) m

/-- A constant RNG stream, for concrete evaluation. -/
def rng0 : Nat → Nat := fun _ => 0

/-- C6 counterexample: starting from a freshly constructed engine,
pressing Reset yields an engine whose output image is a different,
freshly allocated object — the output image does NOT persist across
reset, refuting the claim that only the grids are reallocated.  (The
grid dimensions are unchanged, as the claim also says.) -/
theorem C6_image_reallocated_counterexample :
    ((reset rng0 rng0
        (GameComputePipeline.new rng0 rng0 0 (GRID_SIZE, GRID_SIZE) mem0).2.1
        (GameComputePipeline.new rng0 rng0 0 (GRID_SIZE, GRID_SIZE) mem0).2.2).1.out_view
      ≠ (GameComputePipeline.new rng0 rng0 0 (GRID_SIZE, GRID_SIZE) mem0).1.out_view) ∧
    ((reset rng0 rng0
        (GameComputePipeline.new rng0 rng0 0 (GRID_SIZE, GRID_SIZE) mem0).2.1
        (GameComputePipeline.new rng0 rng0 0 (GRID_SIZE, GRID_SIZE) mem0).2.2).1.size
      = (GameComputePipeline.new rng0 rng0 0 (GRID_SIZE, GRID_SIZE) mem0).1.size) := by
  decide

/-- C6 amended: reset reinitializes both grids with an independent
random draw per cell and leaves the grid dimensions unchanged, but it
reconstructs the whole engine, so the output image is reallocated as
well (a fresh object, not the one owned before the reset). -/
theorem C6_reset_amended (s0 : GameComputePipeline) (rng1 rng2 : Nat → Nat)
    (alloc : Nat) (m : Mem)
    (hfresh : s0.life_in < alloc ∧ s0.life_out < alloc ∧ s0.out_view < alloc)
    (hsize : s0.size = (GRID_SIZE, GRID_SIZE)) :
    (reset rng1 rng2 alloc m).1.size = s0.size ∧
    (reset rng1 rng2 alloc m).1.life_in ≠ s0.life_in ∧
    (reset rng1 rng2 alloc m).1.life_out ≠ s0.life_out ∧
    (∀ i : Int, 0 ≤ i → i < ((GRID_SIZE * GRID_SIZE : Nat) : Int) →
      (reset rng1 rng2 alloc m).2.2.bufs
          (reset rng1 rng2 alloc m).1.life_in i = rng1 i.toNat % 2 ∧
      (reset rng1 rng2 alloc m).2.2.bufs
          (reset rng1 rng2 alloc m).1.life_out i = rng2 i.toNat % 2) ∧
    (reset rng1 rng2 alloc m).1.out_view ≠ s0.out_view := by
  obtain ⟨h1, h2, h3⟩ := hfresh
  refine ⟨by simp [reset, GameComputePipeline.new, hsize],
    by simp [reset, GameComputePipeline.new]; omega,
    by simp [reset, GameComputePipeline.new]; omega, ?_,
    by simp [reset, GameComputePipeline.new]; omega⟩
  intro i hi1 hi2
  push_cast at hi2
  constructor
  · simp only [reset, GameComputePipeline.new, setBuf, setImg]
    simp [grid_init, hi1, hi2]
  · simp only [reset, GameComputePipeline.new, setBuf, setImg]
    simp [grid_init, hi1, hi2]

/-- Witness for C6 amended at a concrete prior engine and fresh
allocation counter. -/
theorem C6_reset_amended_witness :
    (reset rng0 rng0 3 mem0).1.size =
        (⟨0, 1, 2, (GRID_SIZE, GRID_SIZE)⟩ : GameComputePipeline).size ∧
    (reset rng0 rng0 3 mem0).1.life_in ≠
        (⟨0, 1, 2, (GRID_SIZE, GRID_SIZE)⟩ : GameComputePipeline).life_in ∧
    (reset rng0 rng0 3 mem0).1.life_out ≠
        (⟨0, 1, 2, (GRID_SIZE, GRID_SIZE)⟩ : GameComputePipeline).life_out ∧
    (∀ i : Int, 0 ≤ i → i < ((GRID_SIZE * GRID_SIZE : Nat) : Int) →
      (reset rng0 rng0 3 mem0).2.2.bufs
          (reset rng0 rng0 3 mem0).1.life_in i = rng0 i.toNat % 2 ∧
      (reset rng0 rng0 3 mem0).2.2.bufs
          (reset rng0 rng0 3 mem0).1.life_out i = rng0 i.toNat % 2) ∧
    (reset rng0 rng0 3 mem0).1.out_view ≠
        (⟨0, 1, 2, (GRID_SIZE, GRID_SIZE)⟩ : GameComputePipeline).out_view :=
  C6_reset_amended ⟨0, 1, 2, (GRID_SIZE, GRID_SIZE)⟩ rng0 rng0 3 mem0
    (by decide) rfl

/-- The eight flat neighbor indices `compute_life` addresses for the
invocation at `pos` (shader lines 186-203), via `get_index` with no
bounds check. -/
def neighbor_indices (w : Int) (pos : Int × Int) : List Int :=
  neighbor_offsets.map (fun d => get_index w (pos.1 + d.1, pos.2 + d.2))

/-- C7 counterexample: on an 8×8 grid the dispatched cell (0,0) has a
neighbor index -8 (its `down` neighbor), which is outside the buffer,
and the dispatched left-edge cell (0,1) has neighbor index 15 (its
`up_left` neighbor), which is `get_index` of cell (7,1) — a cell of a
DIFFERENT row than the intended (-1,2).  So not every neighbor access of
a dispatched cell stays in bounds, and left-edge accesses do alias cells
of another row. -/
theorem C7_neighbor_bounds_counterexample :
    in_dispatch_range (8 / 8, 8 / 8) (0, 0) ∧
    (-8 : Int) ∈ neighbor_indices 8 (0, 0) ∧
    ¬ (∀ i ∈ neighbor_indices 8 (0, 0), 0 ≤ i ∧ i < 8 * 8) ∧
    in_dispatch_range (8 / 8, 8 / 8) (0, 1) ∧
    (15 : Int) ∈ neighbor_indices 8 (0, 1) ∧
    get_index 8 (7, 1) = 15 := by
  decide

/-- Bounds for a row-major flat index of an in-range cell. -/
theorem flat_index_bounds (w h x y : Int) (hx0 : 0 ≤ x) (hxw : x < w)
    (hy0 : 0 ≤ y) (hyh : y < h) : 0 ≤ y * w + x ∧ y * w + x < w * h := by
  have hw : 0 < w := lt_of_le_of_lt hx0 hxw
  have h2 : (y + 1) * w ≤ h * w :=
    mul_le_mul_of_nonneg_right (by omega) (by omega)
  constructor
  · nlinarith
  · nlinarith

/-- C7 amended: for every NON-BOUNDARY cell (all eight neighbors are
grid cells) each of the eight neighbor accesses of the life-update
invocation computes a flat index within the life buffers,
`0 ≤ index < w*h`; cells on the grid's edge instead produce indices that
are out of range or alias a different row (see the counterexample). -/
theorem C7_neighbor_bounds_amended (w h : Int) (pos : Int × Int)
    (hint : interior w h pos) :
    ∀ i ∈ neighbor_indices w pos, 0 ≤ i ∧ i < w * h := by
  obtain ⟨hx1, hx2, hy1, hy2⟩ := hint
  intro i hi
  simp only [neighbor_indices, neighbor_offsets, get_index, List.map_cons,
    List.map_nil, List.mem_cons, List.not_mem_nil, or_false] at hi
  rcases hi with rfl | rfl | rfl | rfl | rfl | rfl | rfl | rfl <;>
    exact flat_index_bounds w h _ _ (by omega) (by omega) (by omega)
      (by omega)

/-- Witness for C7 amended: the interior cell (2,2) of an 8×8 grid has
the in-bounds neighbor index 25. -/
theorem C7_neighbor_bounds_amended_witness :
    (0 : Int) ≤ 25 ∧ (25 : Int) < 8 * 8 :=
  C7_neighbor_bounds_amended 8 8 (2, 2) (by decide) 25 (by decide)

/-- The invocation grid of one compute dispatch: `w/8 × h/8` workgroups
(`dispatch([img_dims[0] / 8, img_dims[1] / 8, 1])`, line 153) each of
8×8 invocations (`local_size_x = 8, local_size_y = 8`, shader line 164).
An element is `((wgx, wgy), (lx, ly))`: workgroup id and local id. -/
def dispatched_invocations (w h : Nat) :
    Finset ((Nat × Nat) × (Nat × Nat)) :=
  (Finset.range (w / 8) ×ˢ Finset.range (h / 8)) ×ˢ
    (Finset.range 8 ×ˢ Finset.range 8)

/-- How many invocations of one dispatch process the cell `(x, y)`:
an invocation `((wgx, wgy), (lx, ly))` has
`gl_GlobalInvocationID = (8*wgx + lx, 8*wgy + ly)`. -/
def cover_count (w h x y : Nat) : Nat :=
  ((dispatched_invocations w h).filter
    (fun q => 8 * q.1.1 + q.2.1 = x ∧ 8 * q.1.2 + q.2.2 = y)).card

/-- C8: each phase is dispatched as `w/8 × h/8` workgroups of 8×8
invocations; every cell with both coordinates below `(8*(w/8), 8*(h/8))`
is processed by exactly one invocation, and any cell at or beyond that
bound in either axis — in particular the last `w mod 8` columns and
`h mod 8` rows when a dimension is not divisible by 8 — is processed by
none. -/
theorem C8_dispatch_coverage (s : GameComputePipeline) (lc dc : Vec4)
    (st : Int) (x y : Nat) :
    (s.dispatch lc dc st).wg = (s.size.1 / 8, s.size.2 / 8) ∧
    (x < 8 * (s.size.1 / 8) → y < 8 * (s.size.2 / 8) →
      cover_count s.size.1 s.size.2 x y = 1) ∧
    (8 * (s.size.1 / 8) ≤ x ∨ 8 * (s.size.2 / 8) ≤ y →
      cover_count s.size.1 s.size.2 x y = 0) := by
  refine ⟨rfl, ?_, ?_⟩
  · intro hx hy
    have hset : ((dispatched_invocations s.size.1 s.size.2).filter
        (fun q => 8 * q.1.1 + q.2.1 = x ∧ 8 * q.1.2 + q.2.2 = y)) =
        {((x / 8, y / 8), (x % 8, y % 8))} := by
      ext q
      obtain ⟨⟨a, b⟩, c, d⟩ := q
      simp only [dispatched_invocations, Finset.mem_filter,
        Finset.mem_product, Finset.mem_range, Finset.mem_singleton,
        Prod.mk.injEq]
      omega
    rw [cover_count, hset, Finset.card_singleton]
  · intro hxy
    rw [cover_count, Finset.card_eq_zero]
    ext q
    obtain ⟨⟨a, b⟩, c, d⟩ := q
    simp only [dispatched_invocations, Finset.mem_filter,
      Finset.mem_product, Finset.mem_range, Finset.not_mem_empty,
      iff_false, not_and]
    omega

/-- Witness for C8 on a 12×20 grid: cell (3,5) is covered exactly once
and cell (9,5) — in the last `12 mod 8` columns — is never covered. -/
theorem C8_dispatch_coverage_witness :
    cover_count 12 20 3 5 = 1 ∧ cover_count 12 20 9 5 = 0 :=
  ⟨(C8_dispatch_coverage ⟨0, 1, 2, (12, 20)⟩ (1, 0, 0, 1) (0, 0, 0, 1)
      0 3 5).2.1 (by decide) (by decide),
   (C8_dispatch_coverage ⟨0, 1, 2, (12, 20)⟩ (1, 0, 0, 1) (0, 0, 0, 1)
      0 9 5).2.2 (Or.inl (by decide))⟩

/-- The `Uniforms` block of the vertex shader
(final_render_pass.rs lines 295-299). -/
structure Uniforms where
  offset : ℚ × ℚ
  scale : ℚ
  aspect_ratio : ℚ

/-- The vertex stage's position computation (line 302):
`gl_Position.xy = scale * (position * vec2(1.0, aspect_ratio)) + offset`,
with `*` componentwise and `offset` added componentwise. -/
def vs_main (u : Uniforms) (position : ℚ × ℚ) : ℚ × ℚ :=
  (u.scale * (position.1 * 1) + u.offset.1,
   u.scale * (position.2 * u.aspect_ratio) + u.offset.2)

/-- The four quad vertex positions of `create_viewport_quad`
(lines 238-255), in declaration order. -/
def quad_positions : List (ℚ × ℚ) :=
  [(-1, -1), (-1, 1), (1, 1), (1, -1)]

/-- The six quad indices (line 264). -/
def quad_indices : List Nat := [0, 2, 1, 0, 3, 2]

/-- C9: with `offset=(0,0), scale=1, aspectRatio=1` the vertex stage
maps the four quad corners exactly onto the corners of `[-1,1]×[-1,1]`;
with `scale=2` (same offset and aspect ratio) onto the corners of
`[-2,2]×[-2,2]`. -/
theorem C9_vertex_transform :
    quad_positions.map (vs_main ⟨(0, 0), 1, 1⟩) =
      [(-1, -1), (-1, 1), (1, 1), (1, -1)] ∧
    quad_positions.map (vs_main ⟨(0, 0), 2, 1⟩) =
      [(-2, -2), (-2, 2), (2, 2), (2, -2)] := by
  constructor <;> simp [quad_positions, vs_main]

/-- The `Viewport` state (vulkano): origin, extent and depth range in
device pixels, as built by `calculate_viewport` (main.rs lines 224-233). -/
structure Viewport where
  origin : ℚ × ℚ
  dimensions : ℚ × ℚ
  depth_range : ℚ × ℚ
deriving DecidableEq

/-- The graphics commands `FinalRenderPass::render` records, abstracted:
the named commands are those of lines 134-146, and `guiCmd` stands for
one opaque overlay command produced by the gui collaborator. -/
inductive RCmd
  | bindPipelineGraphics
  | setViewport (first : Nat) (v : Viewport)
  | bindVertexBuffers
  | bindIndexBuffer
  | bindDescriptorSets
  | drawIndexed (index_count instance_count first_index vertex_offset
      first_instance : Nat)
  | guiCmd (k : Nat)
deriving DecidableEq

/-- The two subpasses of one recorded frame: the commands executed
before `next_subpass` (subpass 1, the simulation quad) and after it
(subpass 2, the overlay). -/
structure Frame where
  subpass1 : List RCmd
  subpass2 : List RCmd

/-- `FinalRenderPass::render` (final_render_pass.rs lines 77-172):
subpass 1 executes the secondary buffer of lines 134-146 — bind the quad
pipeline, set viewport 0 to the caller's `viewport_bounds`, bind the
quad buffers and descriptor set, draw `index_buffer.len()` = 6 indices;
after `next_subpass` (line 154), subpass 2 executes exactly the command
buffer the gui provider returns for the full target image dimensions
(`gui.draw_on_subpass_image(image_dimensions.width_height())`, line 157,
with `image_dimensions = target.image().dimensions()`, line 90). -/
def FinalRenderPass.render (target_dims : Nat × Nat)
    (gui_draw : Nat × Nat → List RCmd) (viewport_bounds : Viewport) :
    Frame :=
  { subpass1 := [RCmd.bindPipelineGraphics,
                 RCmd.setViewport 0 viewport_bounds,
                 RCmd.bindVertexBuffers,
                 RCmd.bindIndexBuffer,
                 RCmd.bindDescriptorSets,
                 RCmd.drawIndexed quad_indices.length 1 0 0 0]
    subpass2 := gui_draw target_dims }

/-- Whether a command sets viewport state. -/
def is_set_viewport : RCmd → Bool
  | RCmd.setViewport _ _ => true
  | _ => false

/-- C10: in every composite call the caller's drawable sub-rectangle is
the one and only viewport state installed in subpass 1, and subpass 2 is
exactly the overlay command sequence obtained for the full target image
dimensions — `render` installs no viewport there and passes it
unmodified. -/
theorem C10_viewport_scope (target_dims : Nat × Nat)
    (gui_draw : Nat × Nat → List RCmd) (vb : Viewport) :
    ((FinalRenderPass.render target_dims gui_draw vb).subpass1.filter
        is_set_viewport = [RCmd.setViewport 0 vb]) ∧
    (FinalRenderPass.render target_dims gui_draw vb).subpass2 =
      gui_draw target_dims :=
  ⟨rfl, rfl⟩

end Lifetime
